import Mathlib

/-!
Verification development for a FastAPI flashcard/quiz generation service
(single source file `app.py`).  The service exposes `POST /generate`: it
validates a request, selects a system prompt and renders a user prompt from
fixed templates, invokes an external text-generation provider, parses the
provider's text as JSON and returns it, mapping failures to HTTP errors.

The embedding below mirrors `app.py`:
  * `FlashcardRequest` is the pydantic request model (topic, card_type,
    count with default 5 bounded to [1,10], language with default "en"
    restricted to {en, tr}).
  * `SYSTEM_PROMPT_EN`, `QUIZ_SYSTEM_PROMPT_EN`, `SYSTEM_PROMPT_TR`,
    `QUIZ_SYSTEM_PROMPT_TR`, `get_system_prompt`, `get_user_prompt` are the
    prompt constants and selectors.
  * `Json` / `jsonLoads` model Python's `json.loads` (syntactic JSON
    acceptance; numbers are kept as their validated lexemes since no claim
    depends on numeric value).
  * `generateTry` is the body of the handler's `try:` block; exceptions it
    raises are values of `Exc` (an `HTTPException` or a generic exception
    carrying its `str(e)` message).  `generate_flashcard` adds the trailing
    `except Exception as e: raise HTTPException(500, str(e))`, where
    `str` of a starlette `HTTPException` is `"{status_code}: {detail}"`.
  * `httpResponse` maps the handler outcome to an HTTP status and JSON body
    as the framework does; `endpoint` places the pydantic validation
    boundary in front of the handler; `moduleInit` is the import-time
    credential check.
-/

/-- JSON values as produced by the parser.  Numbers keep their source
lexeme: the service never inspects numeric values, it only passes parsed
JSON through. -/
inductive Json where
  | null : Json
  | bool (b : Bool) : Json
  | num (lexeme : String) : Json
  | str (s : String) : Json
  | arr (elems : List Json) : Json
  | obj (members : List (String × Json)) : Json

/-- The double-quote character. -/
def dq : Char := Char.ofNat 34

/-- The backslash character. -/
def bs : Char := Char.ofNat 92

/-- The left-brace character. -/
def lb : Char := Char.ofNat 123

/-- The right-brace character. -/
def rb : Char := Char.ofNat 125

/-- JSON insignificant whitespace (RFC 8259, as accepted by `json.loads`). -/
def jsonWsChar (c : Char) : Bool :=
  c = ' ' || c = '\t' || c = '\n' || c = '\r'

/-- Drop leading JSON whitespace. -/
def skipJsonWs : List Char → List Char
  | [] => []
  | c :: cs => if jsonWsChar c then skipJsonWs cs else c :: cs

/-- Match an expected literal character sequence, returning the rest. -/
def stripChars : List Char → List Char → Option (List Char)
  | [], cs => some cs
  | p :: ps, c :: cs => if c = p then stripChars ps cs else none
  | _ :: _, [] => none

/-- Take a maximal run of decimal digits. -/
def takeDigits : List Char → List Char × List Char
  | [] => ([], [])
  | c :: cs =>
    if c.isDigit then
      let (d, r) := takeDigits cs
      (c :: d, r)
    else ([], c :: cs)

/-- Integer part of a JSON number: `0` or a nonzero digit followed by
digits. -/
def parseIntPart : List Char → Option (List Char × List Char)
  | [] => none
  | c :: cs =>
    if c = '0' then some ([c], cs)
    else if c.isDigit then
      let (d, r) := takeDigits cs
      some (c :: d, r)
    else none

/-- Optional fraction part of a JSON number: `.` followed by one or more
digits, or nothing. -/
def parseFracPart : List Char → Option (List Char × List Char)
  | [] => some ([], [])
  | c :: cs =>
    if c = '.' then
      match cs with
      | [] => none
      | d :: ds =>
        if d.isDigit then
          let (more, r) := takeDigits ds
          some (c :: d :: more, r)
        else none
    else some ([], c :: cs)

/-- Optional exponent part of a JSON number: `e`/`E`, optional sign, one or
more digits, or nothing. -/
def parseExpPart : List Char → Option (List Char × List Char)
  | [] => some ([], [])
  | c :: cs =>
    if c = 'e' ∨ c = 'E' then
      match cs with
      | [] => none
      | s :: ss =>
        if s = '+' ∨ s = '-' then
          match ss with
          | [] => none
          | d :: ds =>
            if d.isDigit then
              let (more, r) := takeDigits ds
              some (c :: s :: d :: more, r)
            else none
        else if s.isDigit then
          let (more, r) := takeDigits ss
          some (c :: s :: more, r)
        else none
    else some ([], c :: cs)

/-- A JSON number token, returned as its lexeme. -/
def parseNumber (cs : List Char) : Option (Json × List Char) :=
  let (negPart, cs1) :=
    match cs with
    | c :: r => if c = '-' then ([c], r) else ([], cs)
    | [] => ([], cs)
  match parseIntPart cs1 with
  | none => none
  | some (ip, r1) =>
    match parseFracPart r1 with
    | none => none
    | some (fp, r2) =>
      match parseExpPart r2 with
      | none => none
      | some (ep, r3) => some (Json.num (String.mk (negPart ++ ip ++ fp ++ ep)), r3)

/-- Hexadecimal digit value. -/
def hexVal (c : Char) : Option Nat :=
  let n := c.toNat
  if 48 ≤ n ∧ n ≤ 57 then some (n - 48)
  else if 97 ≤ n ∧ n ≤ 102 then some (n - 87)
  else if 65 ≤ n ∧ n ≤ 70 then some (n - 55)
  else none

/-- Body of a JSON string after the opening quote: decoded characters and
the input remaining after the closing quote.  Escapes follow `json.loads`
(strict mode: raw control characters are rejected). -/
def parseStringChars : Nat → List Char → Option (List Char × List Char)
  | 0, _ => none
  | _, [] => none
  | fuel + 1, c :: rest =>
    if c = dq then some ([], rest)
    else if c = bs then
      match rest with
      | [] => none
      | e :: rs =>
        if e = dq ∨ e = bs ∨ e = '/' then
          match parseStringChars fuel rs with
          | some (s, r) => some (e :: s, r)
          | none => none
        else if e = 'b' then
          match parseStringChars fuel rs with
          | some (s, r) => some (Char.ofNat 8 :: s, r)
          | none => none
        else if e = 'f' then
          match parseStringChars fuel rs with
          | some (s, r) => some (Char.ofNat 12 :: s, r)
          | none => none
        else if e = 'n' then
          match parseStringChars fuel rs with
          | some (s, r) => some ('\n' :: s, r)
          | none => none
        else if e = 'r' then
          match parseStringChars fuel rs with
          | some (s, r) => some ('\r' :: s, r)
          | none => none
        else if e = 't' then
          match parseStringChars fuel rs with
          | some (s, r) => some ('\t' :: s, r)
          | none => none
        else if e = 'u' then
          match rs with
          | a :: b :: c2 :: d :: rs2 =>
            match hexVal a, hexVal b, hexVal c2, hexVal d with
            | some ha, some hb, some hc, some hd =>
              match parseStringChars fuel rs2 with
              | some (s, r) =>
                some (Char.ofNat (((ha * 16 + hb) * 16 + hc) * 16 + hd) :: s, r)
              | none => none
            | _, _, _, _ => none
          | _ => none
        else none
    else if c.toNat < 32 then none
    else
      match parseStringChars fuel rest with
      | some (s, r) => some (c :: s, r)
      | none => none

mutual

/-- A JSON value with leading whitespace, as accepted by `json.loads`
(including the Python extensions `NaN`, `Infinity`, `-Infinity`). -/
def parseValue : Nat → List Char → Option (Json × List Char)
  | 0, _ => none
  | fuel + 1, cs =>
    match skipJsonWs cs with
    | [] => none
    | c :: rest =>
      if c = lb then parseObjBody fuel rest
      else if c = '[' then parseArrBody fuel rest
      else if c = dq then
        match parseStringChars (rest.length + 1) rest with
        | some (s, r) => some (Json.str (String.mk s), r)
        | none => none
      else if c = 't' then
        match stripChars ['r', 'u', 'e'] rest with
        | some r => some (Json.bool true, r)
        | none => none
      else if c = 'f' then
        match stripChars ['a', 'l', 's', 'e'] rest with
        | some r => some (Json.bool false, r)
        | none => none
      else if c = 'n' then
        match stripChars ['u', 'l', 'l'] rest with
        | some r => some (Json.null, r)
        | none => none
      else if c = 'N' then
        match stripChars ['a', 'N'] rest with
        | some r => some (Json.num "NaN", r)
        | none => none
      else if c = 'I' then
        match stripChars ['n', 'f', 'i', 'n', 'i', 't', 'y'] rest with
        | some r => some (Json.num "Infinity", r)
        | none => none
      else if c = '-' then
        match rest with
        | 'I' :: r2 =>
          match stripChars ['n', 'f', 'i', 'n', 'i', 't', 'y'] r2 with
          | some r => some (Json.num "-Infinity", r)
          | none => none
        | _ => parseNumber (c :: rest)
      else if c.isDigit then parseNumber (c :: rest)
      else none

/-- Array body after `[`. -/
def parseArrBody : Nat → List Char → Option (Json × List Char)
  | 0, _ => none
  | fuel + 1, cs =>
    match skipJsonWs cs with
    | [] => none
    | c :: rest =>
      if c = ']' then some (Json.arr [], rest)
      else
        match parseElems fuel (c :: rest) with
        | some (xs, r) => some (Json.arr xs, r)
        | none => none

/-- One or more comma-separated array elements, then `]`. -/
def parseElems : Nat → List Char → Option (List Json × List Char)
  | 0, _ => none
  | fuel + 1, cs =>
    match parseValue fuel cs with
    | none => none
    | some (j, r1) =>
      match skipJsonWs r1 with
      | [] => none
      | c :: r2 =>
        if c = ',' then
          match parseElems fuel r2 with
          | some (xs, r) => some (j :: xs, r)
          | none => none
        else if c = ']' then some ([j], r2)
        else none

/-- Object body after the opening brace. -/
def parseObjBody : Nat → List Char → Option (Json × List Char)
  | 0, _ => none
  | fuel + 1, cs =>
    match skipJsonWs cs with
    | [] => none
    | c :: rest =>
      if c = rb then some (Json.obj [], rest)
      else
        match parseMembers fuel (c :: rest) with
        | some (kvs, r) => some (Json.obj kvs, r)
        | none => none

/-- One or more comma-separated `"key": value` members, then the closing
brace. -/
def parseMembers : Nat → List Char → Option (List (String × Json) × List Char)
  | 0, _ => none
  | fuel + 1, cs =>
    match skipJsonWs cs with
    | [] => none
    | c :: rest =>
      if c = dq then
        match parseStringChars (rest.length + 1) rest with
        | none => none
        | some (k, r1) =>
          match skipJsonWs r1 with
          | [] => none
          | c2 :: r2 =>
            if c2 = ':' then
              match parseValue fuel r2 with
              | none => none
              | some (v, r3) =>
                match skipJsonWs r3 with
                | [] => none
                | c3 :: r4 =>
                  if c3 = ',' then
                    match parseMembers fuel r4 with
                    | some (kvs, r) => some ((String.mk k, v) :: kvs, r)
                    | none => none
                  else if c3 = rb then some ([(String.mk k, v)], r4)
                  else none
            else none
      else none

end

/-- Python's `json.loads`: parse one JSON value, then require only
whitespace to remain.  The fuel is linear in the input length, which bounds
the number of recursive parsing steps. -/
def jsonLoads (s : String) : Option Json :=
  match parseValue (4 * s.data.length + 8) s.data with
  | some (j, rest) => if skipJsonWs rest = [] then some j else none
  | none => none

/-- Whitespace stripped by Python's `str.strip()` on ASCII text. -/
def pyWsChar (c : Char) : Bool :=
  c = ' ' || c = '\t' || c = '\n' || c = '\r' || c = Char.ofNat 11 || c = Char.ofNat 12

/-- Python's `str.strip()`: remove leading and trailing whitespace. -/
def pyStrip (s : String) : String :=
  String.mk (((s.data.dropWhile pyWsChar).reverse.dropWhile pyWsChar).reverse)

/-- The pydantic request model `FlashcardRequest` (`app.py`, lines 18-22):
topic and card_type are unconstrained strings; count and language carry the
field constraints enforced by `validateRequest` below. -/
structure FlashcardRequest where
  topic : String
  card_type : String
  count : Int
  language : String

/-- The English flashcard system prompt `SYSTEM_PROMPT_EN`. -/
def SYSTEM_PROMPT_EN : String :=
  "You are an expert educational content creator specializing in flashcards for students and lifelong learners. Your task is to create high-quality flashcards that contain the most important, essential facts about a topic (no trivia), clear and concise questions and answers that aid memory retention, and content useful for exams or real-life understanding. Keep questions and answers short and focused (max 25 words). Language level should be high school or university. Return the flashcards as a valid JSON array with no extra text. Each flashcard must have \x27question\x27 and \x27answer\x27 keys."

/-- The English quiz system prompt `QUIZ_SYSTEM_PROMPT_EN`. -/
def QUIZ_SYSTEM_PROMPT_EN : String :=
  "You are an expert educational content creator specializing in multiple-choice quizzes for students and lifelong learners. Your task is to create high-quality multiple-choice questions that cover the most important, essential facts about a topic (no trivia). Each question must have exactly 4 options and 1 correct answer. The options must be plausible and relevant. Language level should be high school or university. Return the result as a valid JSON array with no extra text. Each question must have \x27question\x27, \x27options\x27 (list of 4 strings), and \x27correct_answer\x27 (string) keys."

/-- The Turkish flashcard system prompt `SYSTEM_PROMPT_TR`. -/
def SYSTEM_PROMPT_TR : String :=
  "Sen öğrenciler ve yaşam boyu öğrenenler için flashcard oluşturma konusunda uzman bir eğitim içeriği yaratıcısısın. Görevin bir konu hakkında en önemli, temel gerçekleri içeren (trivia değil), hafızayı güçlendiren net ve özlü sorular ve cevaplar ve sınavlar veya gerçek yaşam anlayışı için yararlı içerik içeren yüksek kaliteli flashcard\x27lar oluşturmaktır. Soruları ve cevapları kısa ve odaklanmış tut (maksimum 25 kelime). Dil seviyesi lise veya üniversite düzeyinde olmalı. Flashcard\x27ları ekstra metin olmadan geçerli bir JSON dizisi olarak döndür. Her flashcard\x27da \x27question\x27 ve \x27answer\x27 anahtarları bulunmalı."

/-- The Turkish quiz system prompt `QUIZ_SYSTEM_PROMPT_TR`. -/
def QUIZ_SYSTEM_PROMPT_TR : String :=
  "Sen öğrenciler ve yaşam boyu öğrenenler için çoktan seçmeli sınavlar konusunda uzman bir eğitim içeriği yaratıcısısın. Görevin bir konu hakkında en önemli, temel gerçekleri kapsayan (trivia değil) yüksek kaliteli çoktan seçmeli sorular oluşturmaktır. Her soru tam olarak 4 seçeneğe ve 1 doğru cevaba sahip olmalı. Seçenekler makul ve konuyla ilgili olmalı. Dil seviyesi lise veya üniversite düzeyinde olmalı. Sonucu ekstra metin olmadan geçerli bir JSON dizisi olarak döndür. Her soruda \x27question\x27, \x27options\x27 (4 string\x27den oluşan liste), ve \x27correct_answer\x27 (string) anahtarları bulunmalı."

/-- `get_system_prompt` (`app.py`, lines 67-74).  The `.error` case is the
`raise ValueError("Invalid card_type")` branch; `str` of that exception is
its message. -/
def get_system_prompt (card_type language : String) : Except String String :=
  if card_type = "flashcard" then
    Except.ok (if language = "tr" then SYSTEM_PROMPT_TR else SYSTEM_PROMPT_EN)
  else if card_type = "quiz" then
    Except.ok (if language = "tr" then QUIZ_SYSTEM_PROMPT_TR else QUIZ_SYSTEM_PROMPT_EN)
  else
    Except.error "Invalid card_type"

/-- `get_user_prompt` (`app.py`, lines 76-103): four f-string templates
keyed on (language = "tr") and then (card_type = "flashcard", anything else
being treated as quiz). -/
def get_user_prompt (card_type topic : String) (count : Int) (language : String) : String :=
  if language = "tr" then
    if card_type = "flashcard" then
      "\x27" ++ topic ++ "\x27 konusu hakkında " ++ toString count ++ " adet flashcard oluştur. Sonucu geçerli bir JSON dizisi olarak döndür. Her flashcard\x27da \x27question\x27 ve \x27answer\x27 anahtarları bulunmalı. Örnek: [\x7b\"question\": \"... nedir?\", \"answer\": \"...\"\x7d, ...]"
    else
      "\x27" ++ topic ++ "\x27 konusu hakkında " ++ toString count ++ " adet çoktan seçmeli soru oluştur. Sadece belirtilen geçerli JSON dizisini döndür."
  else
    if card_type = "flashcard" then
      "Create " ++ toString count ++ " flashcards about \x27" ++ topic ++ "\x27. Return the result as a valid JSON array. Each flashcard should have \x27question\x27 and \x27answer\x27 keys. Example: [\x7b\"question\": \"What is ...?\", \"answer\": \"...\"\x7d, ...]"
    else
      "Create " ++ toString count ++ " multiple-choice questions about \x27" ++ topic ++ "\x27. Return only the valid JSON array as specified."

/-- A FastAPI/starlette `HTTPException` value: status code and detail. -/
structure HTTPException where
  status_code : Nat
  detail : String

/-- An exception escaping the handler's `try:` block: either an
`HTTPException` or any other exception carrying its `str(e)` message (a
`ValueError` from prompt selection, or a provider-client failure). -/
inductive Exc where
  | http (e : HTTPException) : Exc
  | other (msg : String) : Exc

/-- Python's `str(e)`.  For a starlette `HTTPException` the `str` form is
`"\x7bstatus_code\x7d: \x7bdetail\x7d"`; for other exceptions it is the
carried message. -/
def strExc : Exc → String
  | Exc.http e => toString e.status_code ++ ": " ++ e.detail
  | Exc.other msg => msg

/-- The detail string of `HTTPException(400, ...)` raised for an invalid
card_type (`app.py`, line 110). -/
def INVALID_CARD_TYPE_DETAIL : String :=
  "Invalid card_type. Use \x27flashcard\x27 or \x27quiz\x27."

/-- The body of the handler's `try:` block (`app.py`, lines 108-131).  The
provider is a function from the two rendered prompts to either an
exception message or the returned message content; the provider call is
followed by `.strip()` and `json.loads`, whose `JSONDecodeError` is
replaced by `HTTPException(500, "AI did not return valid JSON")`. -/
def generateTry (req : FlashcardRequest)
    (provider : String → String → Except String String) : Except Exc Json :=
  if ¬ (req.card_type = "flashcard" ∨ req.card_type = "quiz") then
    Except.error (Exc.http ⟨400, INVALID_CARD_TYPE_DETAIL⟩)
  else
    match get_system_prompt req.card_type req.language with
    | Except.error msg => Except.error (Exc.other msg)
    | Except.ok system_prompt =>
      let user_prompt := get_user_prompt req.card_type req.topic req.count req.language
      match provider system_prompt user_prompt with
      | Except.error msg => Except.error (Exc.other msg)
      | Except.ok content =>
        let result_text := pyStrip content
        match jsonLoads result_text with
        | none => Except.error (Exc.http ⟨500, "AI did not return valid JSON"⟩)
        | some result_json => Except.ok (Json.obj [("result", result_json)])

/-- The `/generate` handler `generate_flashcard` (`app.py`, lines
105-134): the `try:` body wrapped in
`except Exception as e: raise HTTPException(status_code=500, detail=str(e))`.
An `HTTPException` raised inside the `try:` block is itself an `Exception`,
so it too is caught and re-wrapped. -/
def generate_flashcard (req : FlashcardRequest)
    (provider : String → String → Except String String) : Except HTTPException Json :=
  match generateTry req provider with
  | Except.ok body => Except.ok body
  | Except.error e => Except.error ⟨500, strExc e⟩

/-- An HTTP response: status code and JSON body. -/
structure HttpResponse where
  status : Nat
  body : Json

/-- The JSON body FastAPI renders for a raised `HTTPException`. -/
def detailObj (msg : String) : Json :=
  Json.obj [("detail", Json.str msg)]

/-- The HTTP response for a request that reached the handler: 200 with the
returned dict, or the raised `HTTPException`'s status with a
`\x7b"detail": ...\x7d` body. -/
def httpResponse (req : FlashcardRequest)
    (provider : String → String → Except String String) : HttpResponse :=
  match generate_flashcard req provider with
  | Except.ok body => ⟨200, body⟩
  | Except.error e => ⟨e.status_code, detailObj e.detail⟩

/-- Pydantic validation of the request body against `FlashcardRequest`
(`app.py`, lines 18-22): `count` defaults to 5 and must satisfy
`ge=1, le=10`; `language` defaults to "en" and must match the anchored
pattern `(en|tr)`, i.e. be exactly "en" or "tr";
`topic` and `card_type` are unconstrained strings. -/
def validateRequest (topic card_type : String) (count : Option Int)
    (language : Option String) : Option FlashcardRequest :=
  let c := count.getD 5
  let l := language.getD "en"
  if (1 ≤ c ∧ c ≤ 10) ∧ (l = "en" ∨ l = "tr") then
    some ⟨topic, card_type, c, l⟩
  else
    none

/-- Modelled from the spec: the framework boundary around the handler.
FastAPI validates the body against the pydantic model before invoking the
handler and answers a failed validation itself with a 422 response (whose
exact body this model leaves as `Json.null`, the spec fixing only that a
standard validation error is returned before the handler runs). -/
def endpoint (topic card_type : String) (count : Option Int) (language : Option String)
    (provider : String → String → Except String String) : HttpResponse :=
  match validateRequest topic card_type count language with
  | none => ⟨422, Json.null⟩
  | some req => httpResponse req provider

/-- Module initialisation (`app.py`, lines 8-16): read
`OPENAI_API_KEY` from the environment once; if it is absent raise
`RuntimeError` before the client and the app are constructed, otherwise
construct them.  The result carries the credential the client was built
with. -/
def moduleInit (env : String → Option String) : Except String String :=
  match env "OPENAI_API_KEY" with
  | none => Except.error "OPENAI_API_KEY not found in .env file!"
  | some api_key => Except.ok api_key

/-- For a valid card_type the `try:` body reaches the provider call and is
then decided entirely by whether the stripped provider text parses as
JSON. -/
theorem generateTry_valid (topic ct : String) (count : Int) (lang t : String)
    (hct : ct = "flashcard" ∨ ct = "quiz") :
    generateTry ⟨topic, ct, count, lang⟩ (fun _ _ => Except.ok t)
      = match jsonLoads (pyStrip t) with
        | none => Except.error (Exc.http ⟨500, "AI did not return valid JSON"⟩)
        | some result_json => Except.ok (Json.obj [("result", result_json)]) := by
  rcases hct with h | h <;> subst h <;> by_cases hl : lang = "tr" <;>
    simp [generateTry, get_system_prompt, hl]

/-- C1: the claim says a request whose card_type is outside
\x7bflashcard, quiz\x7d (count and language valid) is answered with status 400
and detail "Invalid card_type. Use 'flashcard' or 'quiz'.".  On the code the
`HTTPException(400, ...)` raised inside the `try:` block is caught by the
trailing `except Exception` and re-raised as a 500 whose detail is the
`str` form of the original exception, so the emitted response for
card_type "essay" has status 500, not 400. -/
theorem c1_invalid_card_type_rewrapped_to_500 :
    httpResponse ⟨"x", "essay", 5, "en"⟩ (fun _ _ => Except.ok "[]")
      = ⟨500, detailObj ("400: " ++ INVALID_CARD_TYPE_DETAIL)⟩
    ∧ (httpResponse ⟨"x", "essay", 5, "en"⟩ (fun _ _ => Except.ok "[]")).status ≠ 400 :=
  ⟨rfl, by decide⟩

/-- C2: the claim says a provider reply that is not valid JSON yields a 500
whose detail is exactly "AI did not return valid JSON".  On the code the
`HTTPException(500, "AI did not return valid JSON")` is caught by the
trailing `except Exception` and re-raised with detail
`str(e) = "500: AI did not return valid JSON"`, so the emitted detail
carries a "500: " prefix. -/
theorem c2_invalid_json_detail_rewrapped :
    httpResponse ⟨"x", "flashcard", 5, "en"⟩
        (fun _ _ => Except.ok "Sorry, I can\x27t help with that.")
      = ⟨500, detailObj "500: AI did not return valid JSON"⟩
    ∧ detailObj "500: AI did not return valid JSON"
        ≠ detailObj "AI did not return valid JSON" :=
  ⟨rfl, fun h => by simp [detailObj] at h⟩

/-- C3: for a valid request whose provider reply, after stripping, parses
as syntactically valid JSON, the handler returns 200 with body
`\x7b"result": <parsed value>\x7d`, the parsed value passed through unchanged
(no schema check). -/
theorem c3_valid_json_passthrough (req : FlashcardRequest) (t : String) (j : Json)
    (hct : req.card_type = "flashcard" ∨ req.card_type = "quiz")
    (hj : jsonLoads (pyStrip t) = some j) :
    httpResponse req (fun _ _ => Except.ok t) = ⟨200, Json.obj [("result", j)]⟩ := by
  rcases req with ⟨topic, ct, count, lang⟩
  have hg := generateTry_valid topic ct count lang t hct
  rw [hj] at hg
  simp [httpResponse, generate_flashcard, hg]

/-- C3 witness: a provider reply `\x7b"foo": "bar"\x7d` (valid JSON of the
wrong shape) is passed through as a 200 result. -/
theorem c3_valid_json_passthrough_witness :
    httpResponse ⟨"x", "flashcard", 5, "en"⟩
        (fun _ _ => Except.ok " \x7b\"foo\": \"bar\"\x7d ")
      = ⟨200, Json.obj [("result", Json.obj [("foo", Json.str "bar")])]⟩ :=
  c3_valid_json_passthrough ⟨"x", "flashcard", 5, "en"⟩ " \x7b\"foo\": \"bar\"\x7d "
    (Json.obj [("foo", Json.str "bar")]) (Or.inl rfl) rfl

/-- C4: on the four valid (card_type, language) pairs `get_system_prompt`
returns exactly the corresponding entry of the fixed 2×2 table, and the
four prompt constants are pairwise distinct. -/
theorem c4_system_prompt_table :
    get_system_prompt "flashcard" "en" = Except.ok SYSTEM_PROMPT_EN
    ∧ get_system_prompt "flashcard" "tr" = Except.ok SYSTEM_PROMPT_TR
    ∧ get_system_prompt "quiz" "en" = Except.ok QUIZ_SYSTEM_PROMPT_EN
    ∧ get_system_prompt "quiz" "tr" = Except.ok QUIZ_SYSTEM_PROMPT_TR
    ∧ SYSTEM_PROMPT_EN ≠ QUIZ_SYSTEM_PROMPT_EN
    ∧ SYSTEM_PROMPT_EN ≠ SYSTEM_PROMPT_TR
    ∧ SYSTEM_PROMPT_EN ≠ QUIZ_SYSTEM_PROMPT_TR
    ∧ QUIZ_SYSTEM_PROMPT_EN ≠ SYSTEM_PROMPT_TR
    ∧ QUIZ_SYSTEM_PROMPT_EN ≠ QUIZ_SYSTEM_PROMPT_TR
    ∧ SYSTEM_PROMPT_TR ≠ QUIZ_SYSTEM_PROMPT_TR := by
  refine ⟨rfl, rfl, rfl, rfl, ?_, ?_, ?_, ?_, ?_, ?_⟩ <;> decide

/-- C5: for every card_type in \x7bflashcard, quiz\x7d the `ValueError` branch
of `get_system_prompt` is not taken (the result is always `ok`), and an
unknown card_type makes the `try:` body raise the 400 `HTTPException`
before prompt selection, whatever the provider would do. -/
theorem c5_value_error_branch_unreachable :
    (∀ ct lang : String, ct = "flashcard" ∨ ct = "quiz" →
      ∃ s, get_system_prompt ct lang = Except.ok s)
    ∧ (∀ (req : FlashcardRequest) (provider : String → String → Except String String),
        ¬ (req.card_type = "flashcard" ∨ req.card_type = "quiz") →
        generateTry req provider
          = Except.error (Exc.http ⟨400, INVALID_CARD_TYPE_DETAIL⟩)) := by
  constructor
  · rintro ct lang (h | h) <;> subst h <;> exact ⟨_, rfl⟩
  · intro req provider h
    simp [generateTry, h]

/-- C5 witness: prompt selection succeeds for ("flashcard", "en"), and a
request with card_type "essay" fails with the 400 exception inside the
`try:` body. -/
theorem c5_value_error_branch_unreachable_witness :
    (∃ s, get_system_prompt "flashcard" "en" = Except.ok s)
    ∧ generateTry ⟨"x", "essay", 5, "en"⟩ (fun _ _ => Except.ok "[]")
        = Except.error (Exc.http ⟨400, INVALID_CARD_TYPE_DETAIL⟩) :=
  ⟨c5_value_error_branch_unreachable.1 "flashcard" "en" (Or.inl rfl),
   c5_value_error_branch_unreachable.2 ⟨"x", "essay", 5, "en"⟩
     (fun _ _ => Except.ok "[]") (by decide)⟩

/-- C6: for each valid (card_type, language) pair there is one fixed
template — three constant strings surrounding the substituted `topic` and
`count` (in the order the template fixes) — and the topic always appears
verbatim as a substring of the rendered user prompt. -/
theorem c6_user_prompt_templates (ct lang : String)
    (hct : ct = "flashcard" ∨ ct = "quiz") (hl : lang = "en" ∨ lang = "tr") :
    ∃ pre mid post : String, ∀ (topic : String) (count : Int),
      (get_user_prompt ct topic count lang
          = pre ++ topic ++ mid ++ toString count ++ post
        ∨ get_user_prompt ct topic count lang
          = pre ++ toString count ++ mid ++ topic ++ post)
      ∧ ∃ p q : String, get_user_prompt ct topic count lang = p ++ topic ++ q := by
  rcases hct with h | h <;> rcases hl with h2 | h2 <;> subst h <;> subst h2
  · exact ⟨"Create ", " flashcards about \x27",
      "\x27. Return the result as a valid JSON array. Each flashcard should have \x27question\x27 and \x27answer\x27 keys. Example: [\x7b\"question\": \"What is ...?\", \"answer\": \"...\"\x7d, ...]",
      fun topic count => ⟨Or.inr rfl, _, _, rfl⟩⟩
  · exact ⟨"\x27", "\x27 konusu hakkında ",
      " adet flashcard oluştur. Sonucu geçerli bir JSON dizisi olarak döndür. Her flashcard\x27da \x27question\x27 ve \x27answer\x27 anahtarları bulunmalı. Örnek: [\x7b\"question\": \"... nedir?\", \"answer\": \"...\"\x7d, ...]",
      fun topic count => ⟨Or.inl rfl,
        "\x27",
        "\x27 konusu hakkında " ++ (toString count ++ " adet flashcard oluştur. Sonucu geçerli bir JSON dizisi olarak döndür. Her flashcard\x27da \x27question\x27 ve \x27answer\x27 anahtarları bulunmalı. Örnek: [\x7b\"question\": \"... nedir?\", \"answer\": \"...\"\x7d, ...]"),
        by simp [get_user_prompt, String.append_assoc]⟩⟩
  · exact ⟨"Create ", " multiple-choice questions about \x27",
      "\x27. Return only the valid JSON array as specified.",
      fun topic count => ⟨Or.inr rfl, _, _, rfl⟩⟩
  · exact ⟨"\x27", "\x27 konusu hakkında ",
      " adet çoktan seçmeli soru oluştur. Sadece belirtilen geçerli JSON dizisini döndür.",
      fun topic count => ⟨Or.inl rfl,
        "\x27",
        "\x27 konusu hakkında " ++ (toString count ++ " adet çoktan seçmeli soru oluştur. Sadece belirtilen geçerli JSON dizisini döndür."),
        by simp [get_user_prompt, String.append_assoc]⟩⟩

/-- C6 witness: the template decomposition instantiated at
("flashcard", "en"). -/
theorem c6_user_prompt_templates_witness :
    ∃ pre mid post : String, ∀ (topic : String) (count : Int),
      (get_user_prompt "flashcard" topic count "en"
          = pre ++ topic ++ mid ++ toString count ++ post
        ∨ get_user_prompt "flashcard" topic count "en"
          = pre ++ toString count ++ mid ++ topic ++ post)
      ∧ ∃ p q : String, get_user_prompt "flashcard" topic count "en" = p ++ topic ++ q :=
  c6_user_prompt_templates "flashcard" "en" (Or.inl rfl) (Or.inl rfl)

/-- C7: a body whose count lies outside [1,10], or whose language is
neither "en" nor "tr", is answered by the validation boundary with a 422
independent of the provider (the handler never runs), while an omitted
count defaults to 5 and an omitted language defaults to "en". -/
theorem c7_boundary_validation :
    (∀ (topic ct : String) (c : Int) (language : Option String)
        (provider : String → String → Except String String),
        ¬ (1 ≤ c ∧ c ≤ 10) →
        endpoint topic ct (some c) language provider = ⟨422, Json.null⟩)
    ∧ (∀ (topic ct : String) (count : Option Int) (l : String)
        (provider : String → String → Except String String),
        l ≠ "en" → l ≠ "tr" →
        endpoint topic ct count (some l) provider = ⟨422, Json.null⟩)
    ∧ (∀ topic ct : String, validateRequest topic ct none none
        = some ⟨topic, ct, 5, "en"⟩) := by
  refine ⟨?_, ?_, ?_⟩
  · intro topic ct c language provider hc
    simp [endpoint, validateRequest, hc]
  · intro topic ct count l provider h1 h2
    simp [endpoint, validateRequest, h1, h2]
  · intro topic ct
    rfl

/-- C7 witness: count 0 and language "de" are both rejected with a 422,
and the all-defaults body validates to count 5, language "en". -/
theorem c7_boundary_validation_witness :
    endpoint "x" "flashcard" (some 0) none (fun _ _ => Except.ok "[]") = ⟨422, Json.null⟩
    ∧ endpoint "x" "flashcard" none (some "de") (fun _ _ => Except.ok "[]")
        = ⟨422, Json.null⟩
    ∧ validateRequest "x" "flashcard" none none = some ⟨"x", "flashcard", 5, "en"⟩ :=
  ⟨c7_boundary_validation.1 "x" "flashcard" 0 none (fun _ _ => Except.ok "[]") (by decide),
   c7_boundary_validation.2.1 "x" "flashcard" none "de" (fun _ _ => Except.ok "[]")
     (by decide) (by decide),
   c7_boundary_validation.2.2 "x" "flashcard"⟩

/-- C8: module initialisation fails with the fatal `RuntimeError` exactly
when the environment lacks `OPENAI_API_KEY`, succeeds with the read
credential otherwise, and depends on the environment only through that
single read. -/
theorem c8_startup_credential (env : String → Option String) :
    (env "OPENAI_API_KEY" = none →
      moduleInit env = Except.error "OPENAI_API_KEY not found in .env file!")
    ∧ (∀ k, env "OPENAI_API_KEY" = some k → moduleInit env = Except.ok k)
    ∧ (∀ env2 : String → Option String,
        env "OPENAI_API_KEY" = env2 "OPENAI_API_KEY" →
        moduleInit env = moduleInit env2) :=
  ⟨fun h => by simp [moduleInit, h],
   fun k h => by simp [moduleInit, h],
   fun env2 h => by simp [moduleInit, h]⟩

/-- C8 witness: with an empty environment startup raises the fatal error,
and with the credential present it succeeds. -/
theorem c8_startup_credential_witness :
    moduleInit (fun _ => none) = Except.error "OPENAI_API_KEY not found in .env file!"
    ∧ moduleInit (fun _ => some "sk-test") = Except.ok "sk-test" :=
  ⟨(c8_startup_credential (fun _ => none)).1 rfl,
   (c8_startup_credential (fun _ => some "sk-test")).2.1 "sk-test" rfl⟩

/-- C9: every exception raised inside the `try:` block — the 400 and 500
`HTTPException`s included — is caught by the trailing `except Exception`
and re-raised as a 500 whose detail is `str(e)`; hence every error
response the handler body emits has status 500, an invalid card_type
yields detail `"400: " ++ INVALID_CARD_TYPE_DETAIL`, and a non-JSON
provider reply yields detail "500: AI did not return valid JSON". -/
theorem c9_catchall_wraps_every_exception (req : FlashcardRequest)
    (provider : String → String → Except String String) :
    ((httpResponse req provider).status = 200 ∨ (httpResponse req provider).status = 500)
    ∧ (∀ e, generateTry req provider = Except.error e →
        httpResponse req provider = ⟨500, detailObj (strExc e)⟩)
    ∧ (¬ (req.card_type = "flashcard" ∨ req.card_type = "quiz") →
        httpResponse req provider
          = ⟨500, detailObj ("400: " ++ INVALID_CARD_TYPE_DETAIL)⟩)
    ∧ (∀ t, req.card_type = "flashcard" ∨ req.card_type = "quiz" →
        provider = (fun _ _ => Except.ok t) → jsonLoads (pyStrip t) = none →
        httpResponse req provider
          = ⟨500, detailObj "500: AI did not return valid JSON"⟩) := by
  refine ⟨?_, ?_, ?_, ?_⟩
  · cases h : generateTry req provider <;>
      simp [httpResponse, generate_flashcard, h]
  · intro e h
    simp [httpResponse, generate_flashcard, h]
  · intro h
    have hg : generateTry req provider
        = Except.error (Exc.http ⟨400, INVALID_CARD_TYPE_DETAIL⟩) := by
      simp [generateTry, h]
    simp [httpResponse, generate_flashcard, hg, strExc]
    rfl
  · intro t hct hp hj
    subst hp
    rcases req with ⟨topic, ct, count, lang⟩
    have hg := generateTry_valid topic ct count lang t hct
    rw [hj] at hg
    simp [httpResponse, generate_flashcard, hg, strExc]
    rfl

/-- C9 witness: the catch-all re-wrapping observed on a concrete invalid
card_type and on a concrete non-JSON provider reply. -/
theorem c9_catchall_wraps_every_exception_witness :
    httpResponse ⟨"y", "essay", 5, "en"⟩ (fun _ _ => Except.ok "hi")
      = ⟨500, detailObj ("400: " ++ INVALID_CARD_TYPE_DETAIL)⟩
    ∧ httpResponse ⟨"y", "quiz", 5, "en"⟩ (fun _ _ => Except.ok "not json")
      = ⟨500, detailObj "500: AI did not return valid JSON"⟩ :=
  ⟨(c9_catchall_wraps_every_exception ⟨"y", "essay", 5, "en"⟩
      (fun _ _ => Except.ok "hi")).2.2.1 (by decide),
   (c9_catchall_wraps_every_exception ⟨"y", "quiz", 5, "en"⟩
      (fun _ _ => Except.ok "not json")).2.2.2 "not json" (Or.inr rfl) rfl rfl⟩

/-- C10: for a valid card_type, both prompt selectors test only for
language "tr": any other language string selects the English variant. -/
theorem c10_non_tr_language_english (ct lang : String)
    (hct : ct = "flashcard" ∨ ct = "quiz") (hl : lang ≠ "tr") :
    get_system_prompt ct lang = get_system_prompt ct "en"
    ∧ ∀ (topic : String) (count : Int),
        get_user_prompt ct topic count lang = get_user_prompt ct topic count "en" := by
  rcases hct with h | h <;> subst h <;>
    exact ⟨by simp [get_system_prompt, hl],
      fun topic count => by simp [get_user_prompt, hl]⟩

/-- C10 witness: language "de" gets the English prompts. -/
theorem c10_non_tr_language_english_witness :
    get_system_prompt "flashcard" "de" = get_system_prompt "flashcard" "en"
    ∧ ∀ (topic : String) (count : Int),
        get_user_prompt "flashcard" topic count "de"
          = get_user_prompt "flashcard" topic count "en" :=
  c10_non_tr_language_english "flashcard" "de" (Or.inl rfl) (by decide)
